import Mathlib

/-!
Verification of the TrustCircle backend (a community services marketplace) against its
natural-language specification.  The domain model below is a shallow embedding of the
Mongoose schemas and route handlers of the Node.js source: pure methods become Lean
functions, document mutation methods become functions from document to document, and the
HTTP handlers become functions returning `Except ApiError _`.  Machine numbers are
modelled as `ℚ` (all arithmetic in the relevant code paths is exact in binary floating
point at the scales involved); the JavaScript value `NaN`, which arises in
`calculateTrustScore` from the division `0 / 0`, is modelled by `Option` with `none`
standing for `NaN`.
-/

namespace TrustCircle

/-- Mongo ObjectId values are modelled as naturals; the source only ever compares them
for equality (via `toString()` comparison). -/
abbrev UserId := Nat

abbrev ObjectId := Nat

/-- The uniform error envelope of the API: `{ success:false, error:{ message, statusCode } }`.
Routes answer 400/403/404 directly; errors thrown inside a handler reach the central
`errorHandler`, which assigns a status code (500 for unknown errors, 400 for Mongo
duplicate-key code 11000). -/
structure ApiError where
  statusCode : Nat
  message : String
deriving DecidableEq, Repr

/-- JavaScript `Math.round`: rounds half toward positive infinity, i.e. `⌊x + 1/2⌋`. -/
def jsRound (x : ℚ) : ℤ := Int.floor (x + 1 / 2)

/-- The `reputation` sub-document of the User schema (`part_000`): `totalReviews`,
`averageRating` (schema bounds 0..5), `completedServices`, `cancelledServices`, all
defaulting to 0. -/
structure Reputation where
  totalReviews : Nat
  averageRating : ℚ
  completedServices : Nat
  cancelledServices : Nat
deriving DecidableEq, Repr

/-- Embedding of `userSchema.methods.calculateTrustScore` (`part_000` lines 238-257).

The source reads:
```
if (totalReviews === 0) { return 0; }
let score = (averageRating / 5) * 100;
const completionRate = completedServices / (completedServices + cancelledServices);
score *= completionRate;
const reviewBonus = Math.min(totalReviews / 50, 1) * 10;
score += reviewBonus;
return Math.min(Math.round(score), 100);
```
There is no guard on the denominator `completedServices + cancelledServices`.  When it is
0 the numerator is also 0 (both are nonnegative counts), and in JavaScript `0 / 0` is
`NaN`; `NaN` then propagates through `*=`, `+=`, `Math.round` and `Math.min`, so the
method returns `NaN`.  `none` models that `NaN` outcome; `some v` models a finite
numeric result. -/
def calculateTrustScore (r : Reputation) : Option ℤ :=
  if r.totalReviews = 0 then
    some 0
  else
    let score : ℚ := (r.averageRating / 5) * 100
    if ((r.completedServices : ℚ) + (r.cancelledServices : ℚ)) = 0 then
      none
    else
      let completionRate : ℚ :=
        (r.completedServices : ℚ) / ((r.completedServices : ℚ) + (r.cancelledServices : ℚ))
      let score1 := score * completionRate
      let reviewBonus : ℚ := min ((r.totalReviews : ℚ) / 50) 1 * 10
      let score2 := score1 + reviewBonus
      some (min (jsRound score2) 100)

/-- The trust-score formula exactly as the specification words it, for comparison with
the source embedding `calculateTrustScore`: 0 if no reviews, otherwise
`(avgRating/5)*100 * completionRate + min(totalReviews/50,1)*10`, rounded, clamped to
[0,100], with `completionRate = completed/(completed+cancelled)` "guarded against
division by zero by flooring the denominator at 1". -/
def specTrustScore (r : Reputation) : ℤ :=
  if r.totalReviews = 0 then 0
  else
    let denom : ℚ := max ((r.completedServices : ℚ) + (r.cancelledServices : ℚ)) 1
    let completionRate : ℚ := (r.completedServices : ℚ) / denom
    let score : ℚ :=
      (r.averageRating / 5) * 100 * completionRate + min ((r.totalReviews : ℚ) / 50) 1 * 10
    min (max (jsRound score) 0) 100

/-- One entry of `availability.schedule` in the Service schema: a weekday name together
with an `available` flag (start/end times are not consulted by `isAvailable` before the
point where it throws, so they are elided). -/
structure ScheduleEntry where
  day : String
  available : Bool
deriving DecidableEq, Repr

/-- One entry of `availability.exceptions`: a date (epoch milliseconds) with an
`available` override flag. -/
structure AvailabilityException where
  date : ℚ
  available : Bool
deriving DecidableEq, Repr

/-- The `availability` sub-document of the Service schema: weekly schedule, dated
exceptions, and the minimum advance-booking time in hours (`advanceBooking`, which the
booking-creation route reads as `service.availability.advanceBooking || 24`). -/
structure Availability where
  schedule : List ScheduleEntry
  exceptions : List AvailabilityException
  advanceBooking : Option ℚ
deriving DecidableEq, Repr

/-- The Service document fields consulted by the routes and methods under study:
provider, active/paused flags and availability. -/
structure Service where
  provider : UserId
  isActive : Bool
  isPaused : Bool
  availability : Availability
deriving DecidableEq, Repr

/-- Embedding of `serviceSchema.methods.isAvailable` (`Service.js` lines 343-367).

The source reads:
```
if (!this.isActive || this.isPaused) { return false; }
const requestDate = new Date(date);
const dayOfWeek = requestDate.toLocaleLowerCase().slice(0, 3);
...
```
`Date.prototype` has no method `toLocaleLowerCase` (that is a `String` method), so
`requestDate.toLocaleLowerCase` evaluates to `undefined` and calling it throws
`TypeError: requestDate.toLocaleLowerCase is not a function`.  Every statement after
that line (the weekly-schedule lookup and the exceptions check) is therefore dead code:
the method returns `false` for an inactive or paused service and otherwise throws.
`Except` models the throw; the `duration` parameter (default 60) is accepted but never
reached. -/
def isAvailable (s : Service) (date : ℚ) (duration : ℚ) : Except String Bool :=
  if !s.isActive || s.isPaused then
    Except.ok false
  else
    Except.error "TypeError: requestDate.toLocaleLowerCase is not a function"

/-- The six values of the Booking schema `status` enum. -/
inductive BookingStatus where
  | pending
  | confirmed
  | in_progress
  | completed
  | cancelled
  | no_show
deriving DecidableEq, Repr

/-- String form of a status, as it appears in route error messages. -/
def statusName : BookingStatus → String
  | .pending => "pending"
  | .confirmed => "confirmed"
  | .in_progress => "in_progress"
  | .completed => "completed"
  | .cancelled => "cancelled"
  | .no_show => "no_show"

/-- One entry of the Booking schema `statusHistory` array. -/
structure StatusHistoryEntry where
  status : BookingStatus
  changedAt : ℚ
  changedBy : UserId
  reason : String
  notes : String
deriving DecidableEq, Repr

/-- The `pricing` sub-document of the Booking schema.  `servicePrice`, `platformFee` and
`taxes` may be absent (`undefined` in JS, modelled by `none`); the pre-save hook treats
an absent component as 0 via `(x || 0)`. -/
structure BookingPricing where
  servicePrice : Option ℚ
  platformFee : Option ℚ
  taxes : Option ℚ
  totalAmount : ℚ
deriving DecidableEq, Repr

/-- The `completion` sub-document of the Booking schema (only `completedAt` is touched
by the methods under study). -/
structure BookingCompletion where
  completedAt : Option ℚ
deriving DecidableEq, Repr

/-- The `cancellation` sub-document of the Booking schema. -/
structure BookingCancellation where
  cancelledAt : Option ℚ
  cancelledBy : Option UserId
  reason : Option String
  refundAmount : Option ℚ
  refundStatus : Option String
deriving DecidableEq, Repr

/-- The Booking document fields consulted by the methods and routes under study.
Dates are epoch milliseconds as rationals (`scheduledDate` combines the schema date and
time the way the fee calculation reads it, `new Date(this.scheduledDate)`). -/
structure Booking where
  id : ObjectId
  customer : UserId
  provider : UserId
  service : ObjectId
  scheduledDate : ℚ
  status : BookingStatus
  statusHistory : List StatusHistoryEntry
  pricing : BookingPricing
  completion : BookingCompletion
  cancellation : BookingCancellation
deriving DecidableEq, Repr

/-- Embedding of `bookingSchema.methods.updateStatus` (`Service.js` lines 720-747): push
the old status onto `statusHistory`, set `status := newStatus`, then stamp
`completion.completedAt` when entering `completed` (only if unset, `!this.completion.completedAt`),
and stamp `cancellation.{cancelledAt, cancelledBy, reason}` when entering `cancelled`
(only if `cancelledAt` is unset).  `now` is the ambient clock (`new Date()`).  The
source ends with `this.save()`; a status change neither creates the document nor touches
`pricing`, so the pre-save hooks (below) are no-ops on this path and saving is modelled
as the identity. -/
def updateStatus (b : Booking) (newStatus : BookingStatus) (changedBy : UserId)
    (reason notes : String) (now : ℚ) : Booking :=
  let b1 : Booking :=
    { b with
      statusHistory := b.statusHistory ++ [⟨b.status, now, changedBy, reason, notes⟩],
      status := newStatus }
  let b2 : Booking :=
    if newStatus = .completed ∧ b1.completion.completedAt = none then
      { b1 with completion := ⟨some now⟩ }
    else b1
  if newStatus = .cancelled ∧ b2.cancellation.cancelledAt = none then
    { b2 with
      cancellation :=
        { b2.cancellation with
          cancelledAt := some now
          cancelledBy := some changedBy
          reason := some reason } }
  else b2

/-- Embedding of `bookingSchema.methods.calculateCancellationFee` (`Service.js` lines
750-763): a pure function of the clock and the scheduled time.
`hoursUntilBooking = (bookingTime - now) / (1000*60*60)`; strictly more than 24 hours
out is free, strictly more than 2 hours out costs 25% of `pricing.totalAmount`, and
everything else (2 hours or less, including past bookings) costs 50%. -/
def calculateCancellationFee (b : Booking) (now : ℚ) : ℚ :=
  let hoursUntilBooking : ℚ := (b.scheduledDate - now) / (1000 * 60 * 60)
  if 24 < hoursUntilBooking then 0
  else if 2 < hoursUntilBooking then b.pricing.totalAmount * (25 / 100)
  else b.pricing.totalAmount * (50 / 100)

/-- A Booking wrapped in its Mongoose document state: `isNew` (the document has not
been persisted yet) and whether the `pricing` path is modified (`isModified('pricing')`,
which is also true for every path of a new document). -/
structure BookingDoc where
  data : Booking
  isNew : Bool
  pricingModified : Bool
deriving DecidableEq, Repr

/-- Embedding of the first `bookingSchema.pre('save')` hook (`Service.js` lines 800-807):
when `pricing` is modified, recompute
`pricing.totalAmount = (servicePrice || 0) + (platformFee || 0) + (taxes || 0)`. -/
def preSavePricing (d : BookingDoc) : BookingDoc :=
  if d.pricingModified then
    { d with
      data :=
        { d.data with
          pricing :=
            { d.data.pricing with
              totalAmount :=
                d.data.pricing.servicePrice.getD 0 + d.data.pricing.platformFee.getD 0 +
                  d.data.pricing.taxes.getD 0 } } }
  else d

/-- Embedding of the second `bookingSchema.pre('save')` hook (`Service.js` lines
809-821): on first persist (`this.isNew`) seed `statusHistory` with an initial entry
recording the current status, the customer as actor, reason "Booking created" and notes
"Initial booking request". -/
def preSaveCreationHistory (d : BookingDoc) (now : ℚ) : BookingDoc :=
  if d.isNew then
    { d with
      data :=
        { d.data with
          statusHistory :=
            d.data.statusHistory ++
              [⟨d.data.status, now, d.data.customer, "Booking created",
                "Initial booking request"⟩] } }
  else d

/-- Persisting a Booking document runs the two pre-save hooks in registration order and
clears the document-state flags. -/
def saveBooking (d : BookingDoc) (now : ℚ) : BookingDoc :=
  let d1 := preSavePricing d
  let d2 := preSaveCreationHistory d1 now
  { d2 with isNew := false, pricingModified := false }

/-- The transition table of `PUT /api/bookings/:id/status` (`bookings.js` lines 313-334),
`validTransitions` in the source: which target statuses are accepted from each current
status.  `completed`, `cancelled` and `no_show` map to the empty list. -/
def validTransitions : BookingStatus → List BookingStatus
  | .pending => [.confirmed, .cancelled]
  | .confirmed => [.in_progress, .cancelled, .no_show]
  | .in_progress => [.completed, .cancelled]
  | .completed => []
  | .cancelled => []
  | .no_show => []

/-- Embedding of `PUT /api/bookings/:id/status` (`bookings.js` lines 283-352) together
with the `bookingParticipant` middleware (`part_004` lines 185-236) that runs before it.
In order: the middleware rejects a non-participant with 403; the `express-validator`
check `body('status').isIn([...])` rejects a requested status outside
`[confirmed, in_progress, completed, cancelled, no_show]` (in particular `pending`) with
a 400 validation error; the handler rejects a transition absent from `validTransitions`
with 400; `confirmed` and `completed` are rejected with 403 unless the requester is the
provider (`req.isProvider`, set by the middleware to `userId === booking.provider`);
otherwise the handler applies `booking.updateStatus(status, req.user._id, reason, notes)`. -/
def putBookingStatus (b : Booking) (userId : UserId) (requested : BookingStatus)
    (reason notes : String) (now : ℚ) : Except ApiError Booking :=
  if userId = b.customer ∨ userId = b.provider then
    if requested = .pending then
      Except.error ⟨400, "Validation Error"⟩
    else if requested ∈ validTransitions b.status then
      if requested = .confirmed ∧ ¬userId = b.provider then
        Except.error ⟨403, "Only service provider can confirm bookings"⟩
      else if requested = .completed ∧ ¬userId = b.provider then
        Except.error ⟨403, "Only service provider can mark bookings as completed"⟩
      else
        Except.ok (updateStatus b requested userId reason notes now)
    else
      Except.error
        ⟨400, "Cannot change status from " ++ statusName b.status ++ " to " ++
          statusName requested⟩
  else
    Except.error ⟨403, "Access denied - not a participant in this booking"⟩

/-- Embedding of `DELETE /api/bookings/:id` (`bookings.js` lines 478-540) with the
`bookingParticipant` middleware: a participant cancels a pending or confirmed booking.
The handler computes `cancellationFee = booking.calculateCancellationFee()`,
`refundAmount = booking.pricing.totalAmount - cancellationFee`, applies
`updateStatus('cancelled', req.user._id, reason)` and stamps
`cancellation.refundAmount` and `cancellation.refundStatus`
(`pending` when the refund is positive, else `not_applicable`).  The success payload
carries `(booking, refundAmount, cancellationFee)`. -/
def cancelBookingRoute (b : Booking) (userId : UserId) (reason : String) (now : ℚ) :
    Except ApiError (Booking × ℚ × ℚ) :=
  if userId = b.customer ∨ userId = b.provider then
    if reason.length < 5 ∨ 500 < reason.length then
      Except.error ⟨400, "Validation Error"⟩
    else if b.status = .pending ∨ b.status = .confirmed then
      let cancellationFee := calculateCancellationFee b now
      let refundAmount := b.pricing.totalAmount - cancellationFee
      let b1 := updateStatus b .cancelled userId reason "" now
      let b2 : Booking :=
        { b1 with
          cancellation :=
            { b1.cancellation with
              refundAmount := some refundAmount
              refundStatus :=
                some (if 0 < refundAmount then "pending" else "not_applicable") } }
      Except.ok (b2, refundAmount, cancellationFee)
    else
      Except.error ⟨400, "Only pending or confirmed bookings can be cancelled"⟩
  else
    Except.error ⟨403, "Access denied - not a participant in this booking"⟩

/-- Embedding of the head of `POST /api/bookings` (`bookings.js` lines 140-200), after
the input-shape validation: look up the service (`none` models a missing or null lookup
result), reject an inactive or paused (or missing) service, reject self-booking
(`service.provider._id.toString() === req.user._id.toString()`), reject a scheduled time
closer than `advanceBooking || 24` hours from now, then consult
`service.isAvailable(bookingDateTime, estimatedDuration)`.  A throw from `isAvailable`
is caught by the handler's catch block and forwarded to the central error handler, which
answers 500 for an unrecognized error.  On success the handler constructs the booking
with the requester as customer and the service owner as provider (the pricing and
remaining request fields are irrelevant to the claims and are seeded with defaults). -/
def createBookingRoute (service? : Option Service) (serviceId : ObjectId)
    (userId : UserId) (bookingDateTime now estimatedDuration : ℚ) :
    Except ApiError Booking :=
  match service? with
  | none => Except.error ⟨400, "Service is not available for booking"⟩
  | some s =>
    if !s.isActive || s.isPaused then
      Except.error ⟨400, "Service is not available for booking"⟩
    else if s.provider = userId then
      Except.error ⟨400, "Cannot book your own service"⟩
    else
      let minBookingTime := now + s.availability.advanceBooking.getD 24 * (60 * 60 * 1000)
      if bookingDateTime < minBookingTime then
        Except.error ⟨400, "Booking must be at least the advance-booking hours in advance"⟩
      else
        match isAvailable s bookingDateTime estimatedDuration with
        | Except.error msg => Except.error ⟨500, msg⟩
        | Except.ok false =>
          Except.error ⟨400, "Service is not available at the requested time"⟩
        | Except.ok true =>
          Except.ok
            { id := 0, customer := userId, provider := s.provider, service := serviceId,
              scheduledDate := bookingDateTime, status := .pending, statusHistory := [],
              pricing := ⟨none, none, none, 0⟩, completion := ⟨none⟩,
              cancellation := ⟨none, none, none, none, none⟩ }

/-- The two values of the review schema `reviewType` discriminator. -/
inductive ReviewType where
  | customer_to_provider
  | provider_to_customer
deriving DecidableEq, Repr

/-- The Review document fields consulted by the creation route (`Community.js` review
schema, lines 644-690). -/
structure Review where
  reviewer : UserId
  reviewee : UserId
  service : ObjectId
  booking : ObjectId
  reviewType : ReviewType
  rating : Nat
  comment : String
deriving DecidableEq, Repr

/-- Persisting a new Review document.  The review schema declares `unique: true` on the
`booking` field alone (`Community.js` line 668, source comment "One review per booking");
there is no compound `(booking, reviewType)` unique index among the schema's index
declarations (lines 891-902).  An insert whose `booking` value collides with any stored
review therefore fails with Mongo duplicate-key error 11000, which the central
`errorHandler` (`part_003`) maps to statusCode 400 / DuplicateError. -/
def insertReview (db : List Review) (r : Review) : Except ApiError (List Review) :=
  if ∃ r0 ∈ db, r0.booking = r.booking then
    Except.error ⟨400, "Booking already exists"⟩
  else
    Except.ok (db ++ [r])

/-- Embedding of `POST /api/reviews` (`reviews.js` lines 150-270): the referenced
booking must be `completed`; the requester must be a participant; a customer may only
create `customer_to_provider` and a provider only `provider_to_customer` reviews; then
`Review.findOne({ booking, reviewType })` rejects an exact duplicate at the route level;
finally the document is inserted, subject to the schema's unique index on `booking`. -/
def createReviewRoute (db : List Review) (bk : Booking) (userId : UserId)
    (reviewType : ReviewType) (rating : Nat) (comment : String) :
    Except ApiError (List Review) :=
  if ¬bk.status = .completed then
    Except.error ⟨400, "Can only review completed bookings"⟩
  else if ¬userId = bk.customer ∧ ¬userId = bk.provider then
    Except.error ⟨403, "Not authorized to review this booking"⟩
  else if userId = bk.customer ∧ ¬reviewType = .customer_to_provider then
    Except.error ⟨400, "Customers can only create customer_to_provider reviews"⟩
  else if userId = bk.provider ∧ ¬reviewType = .provider_to_customer then
    Except.error ⟨400, "Providers can only create provider_to_customer reviews"⟩
  else if ∃ r ∈ db, r.booking = bk.id ∧ r.reviewType = reviewType then
    Except.error ⟨400, "Review already exists for this booking"⟩
  else
    let reviewer := if userId = bk.customer then bk.customer else bk.provider
    let reviewee := if userId = bk.customer then bk.provider else bk.customer
    insertReview db ⟨reviewer, reviewee, bk.service, bk.id, reviewType, rating, comment⟩

/-- One entry of `engagement.likes` in the Community schema: the liking user and a
timestamp. -/
structure PostLike where
  user : UserId
  likedAt : ℚ
deriving DecidableEq, Repr

/-- The `engagement` sub-document of the Community schema, restricted to the `likes`
array that `addLike`/`removeLike` mutate (views, shares, bookmarks play no role in the
claims under study). -/
structure Engagement where
  likes : List PostLike
deriving DecidableEq, Repr

/-- The Community post fields consulted by the like methods. -/
structure CommunityPost where
  author : UserId
  engagement : Engagement
deriving DecidableEq, Repr

/-- Embedding of `communitySchema.methods.addLike` (`Community.js` lines 417-431):
`find` an existing like by the same user; if absent, push `{user, likedAt}` and save;
if present, resolve with the document unchanged. -/
def addLike (p : CommunityPost) (userId : UserId) (now : ℚ) : CommunityPost :=
  match p.engagement.likes.find? (fun l => l.user == userId) with
  | some _ => p
  | none => { p with engagement := ⟨p.engagement.likes ++ [⟨userId, now⟩]⟩ }

/-- Embedding of `communitySchema.methods.removeLike` (`Community.js` lines 433-439):
filter the likes array down to entries whose user differs, then save. -/
def removeLike (p : CommunityPost) (userId : UserId) : CommunityPost :=
  { p with engagement := ⟨p.engagement.likes.filter (fun l => l.user != userId)⟩ }

/-- The invariant the spec states for embedded engagement arrays: at most one entry per
user. -/
def AtMostOnePerUser (ls : List PostLike) : Prop :=
  ∀ v : UserId, ls.countP (fun l => l.user == v) ≤ 1

/-- A JSON field value (the user document mixes strings, numbers, booleans and null). -/
inductive JValue where
  | str (s : String)
  | num (q : ℚ)
  | bool (b : Bool)
  | null
deriving DecidableEq, Repr

/-- The User document fields relevant to serialization, a representative cross-section
of the user schema (`part_000`): identity, the password hash, profile and account
state.  The omitted schema fields (location, preferences, verification, aiProfile, ...)
are serialized the same way as the kept non-password fields and play no role in the
claim under study. -/
structure UserDoc where
  firstName : String
  lastName : String
  email : String
  phone : Option String
  password : String
  bio : Option String
  trustScore : ℚ
  isActive : Bool
deriving DecidableEq, Repr

/-- Mongoose `toObject()`: the raw key/value form of the document, password included. -/
def toObject (u : UserDoc) : List (String × JValue) :=
  [("firstName", .str u.firstName),
   ("lastName", .str u.lastName),
   ("email", .str u.email),
   ("phone", u.phone.elim .null .str),
   ("password", .str u.password),
   ("bio", u.bio.elim .null .str),
   ("trustScore", .num u.trustScore),
   ("isActive", .bool u.isActive)]

/-- Embedding of `userSchema.methods.toJSON` (`part_000` lines 266-270): take the raw
object and `delete user.password`; deleting an own property removes exactly the entry
with that key. -/
def userToJSON (u : UserDoc) : List (String × JValue) :=
  (toObject u).filter (fun kv => kv.1 != "password")

/-- The schema paths declared with `select: false` in the user schema: only `password`
(`part_000` line 35). -/
def selectFalseFields : List String := ["password"]

/-- The default projection a query returns for a user document: Mongoose excludes every
path declared `select: false` unless the query opts in with an explicit
`.select('+field')`. -/
def defaultQueryProjection (u : UserDoc) : List (String × JValue) :=
  (toObject u).filter (fun kv => !selectFalseFields.contains kv.1)

end TrustCircle

namespace TrustCircle

/-- C1 counterexample: a user with one review (average rating 5) and zero completed and
zero cancelled services.  The claim asserts the division-by-zero guard makes the score a
well-defined number (the guarded formula of the spec yields 0 here), but the source has
no guard: the completion rate is `0 / 0 = NaN` and `calculateTrustScore` returns `NaN`
(modelled by `none`), not a number. -/
theorem calculateTrustScore_guard_counterexample :
    calculateTrustScore ⟨1, 5, 0, 0⟩ = none ∧ specTrustScore ⟨1, 5, 0, 0⟩ = 0 := by
  constructor
  · norm_num [calculateTrustScore]
  · norm_num [specTrustScore, jsRound]

/-- C1 (amended): `calculateTrustScore` returns 0 for a user with no reviews; for a user
with reviews but zero completed and zero cancelled services it returns `NaN` (there is no
division-by-zero guard); in every other case (with the schema's nonnegative average
rating) it agrees with the spec formula `(avgRating/5)*100 * completionRate +
min(totalReviews/50,1)*10`, rounded and clamped to [0,100]. -/
theorem calculateTrustScore_spec (r : Reputation) :
    (r.totalReviews = 0 → calculateTrustScore r = some 0) ∧
    (r.totalReviews ≠ 0 → r.completedServices = 0 → r.cancelledServices = 0 →
      calculateTrustScore r = none) ∧
    (0 ≤ r.averageRating → ¬(r.completedServices = 0 ∧ r.cancelledServices = 0) →
      calculateTrustScore r = some (specTrustScore r)) := by
  refine ⟨fun h => by simp [calculateTrustScore, h], fun h hc hcc => by
    simp [calculateTrustScore, h, hc, hcc], fun havg hne => ?_⟩
  by_cases h0 : r.totalReviews = 0
  · simp [calculateTrustScore, specTrustScore, h0]
  · have hsum : r.completedServices + r.cancelledServices ≠ 0 := by
      rcases Nat.eq_zero_or_pos r.completedServices with hc | hc
      · rcases Nat.eq_zero_or_pos r.cancelledServices with hcc | hcc
        · exact absurd ⟨hc, hcc⟩ hne
        · omega
      · omega
    have hpos : (0 : ℚ) < (r.completedServices : ℚ) + (r.cancelledServices : ℚ) := by
      have := Nat.pos_of_ne_zero hsum
      push_cast
      exact_mod_cast Nat.cast_pos.mpr this
    have hone : (1 : ℚ) ≤ (r.completedServices : ℚ) + (r.cancelledServices : ℚ) := by
      have h1 : 1 ≤ r.completedServices + r.cancelledServices := Nat.pos_of_ne_zero hsum
      calc (1 : ℚ) = ((1 : ℕ) : ℚ) := by norm_num
        _ ≤ ((r.completedServices + r.cancelledServices : ℕ) : ℚ) := by
              exact_mod_cast h1
        _ = (r.completedServices : ℚ) + (r.cancelledServices : ℚ) := by push_cast; ring
    have hmax : max ((r.completedServices : ℚ) + (r.cancelledServices : ℚ)) 1 =
        (r.completedServices : ℚ) + (r.cancelledServices : ℚ) := max_eq_left hone
    have hscore :
        (0 : ℚ) ≤ (r.averageRating / 5) * 100 *
            ((r.completedServices : ℚ) /
              ((r.completedServices : ℚ) + (r.cancelledServices : ℚ))) +
          min ((r.totalReviews : ℚ) / 50) 1 * 10 := by
      have h1 : (0 : ℚ) ≤ (r.averageRating / 5) * 100 := by positivity
      have h2 : (0 : ℚ) ≤ (r.completedServices : ℚ) /
          ((r.completedServices : ℚ) + (r.cancelledServices : ℚ)) := by positivity
      have h3 : (0 : ℚ) ≤ min ((r.totalReviews : ℚ) / 50) 1 := by positivity
      nlinarith
    have hfloor : (0 : ℤ) ≤ jsRound ((r.averageRating / 5) * 100 *
        ((r.completedServices : ℚ) /
          ((r.completedServices : ℚ) + (r.cancelledServices : ℚ))) +
        min ((r.totalReviews : ℚ) / 50) 1 * 10) := by
      unfold jsRound
      exact Int.floor_nonneg.mpr (by linarith)
    simp only [calculateTrustScore, specTrustScore, h0, if_false, ne_of_gt hpos,
      hmax, ite_false]
    rw [max_eq_left hfloor]

/-- C2: for every service and date, `isAvailable` returns `false` when the service is
inactive or paused; in every other case it does not return a boolean at all but throws
`TypeError: requestDate.toLocaleLowerCase is not a function` (the schedule and exception
checks are dead code). -/
theorem isAvailable_spec (s : Service) (date duration : ℚ) :
    (s.isActive = false ∨ s.isPaused = true →
      isAvailable s date duration = Except.ok false) ∧
    (s.isActive = true → s.isPaused = false →
      isAvailable s date duration =
        Except.error "TypeError: requestDate.toLocaleLowerCase is not a function") := by
  constructor
  · rintro (h | h) <;> simp [isAvailable, h]
  · intro h1 h2
    simp [isAvailable, h1, h2]

/-- Witness for `isAvailable_spec`: a concrete active, unpaused service with a weekly
schedule marking monday available still throws. -/
theorem isAvailable_spec_witness :
    isAvailable ⟨1, true, false, ⟨[⟨"monday", true⟩], [], none⟩⟩ 0 60 =
      Except.error "TypeError: requestDate.toLocaleLowerCase is not a function" :=
  (isAvailable_spec ⟨1, true, false, ⟨[⟨"monday", true⟩], [], none⟩⟩ 0 60).2 rfl rfl

/-- A booking with the given scheduled time (epoch milliseconds), total amount and
status; the remaining fields are inert defaults (customer 1, provider 2). -/
def mkBooking (sched total : ℚ) (status : BookingStatus) : Booking :=
  { id := 1, customer := 1, provider := 2, service := 3, scheduledDate := sched,
    status := status, statusHistory := [], pricing := ⟨none, none, none, total⟩,
    completion := ⟨none⟩, cancellation := ⟨none, none, none, none, none⟩ }

/-- C3 counterexample: a booking scheduled exactly 24 hours from now with total amount
100.  The claim says a booking 24 hours or more away incurs a 0% fee, but the source
compares with strict `hoursUntilBooking > 24`, so the fee is 25% of the total. -/
theorem cancellationFee_boundary_counterexample :
    ((mkBooking (24 * (1000 * 60 * 60)) 100 .pending).scheduledDate - 0) /
        (1000 * 60 * 60) = 24 ∧
    calculateCancellationFee (mkBooking (24 * (1000 * 60 * 60)) 100 .pending) 0 = 25 := by
  constructor
  · norm_num [mkBooking]
  · norm_num [calculateCancellationFee, mkBooking]

/-- C3 (amended): with `h` the number of hours between now and the scheduled time, the
fee is 0 when `h` is strictly greater than 24, 25% of `pricing.totalAmount` when
`2 < h ≤ 24`, and 50% when `h ≤ 2`; the cancellation handler returns exactly this fee
together with `refund = pricing.totalAmount - fee`. -/
theorem calculateCancellationFee_spec (b : Booking) (userId : UserId) (reason : String)
    (now : ℚ) :
    (24 < (b.scheduledDate - now) / (1000 * 60 * 60) →
      calculateCancellationFee b now = 0) ∧
    (2 < (b.scheduledDate - now) / (1000 * 60 * 60) →
      (b.scheduledDate - now) / (1000 * 60 * 60) ≤ 24 →
      calculateCancellationFee b now = b.pricing.totalAmount * (25 / 100)) ∧
    ((b.scheduledDate - now) / (1000 * 60 * 60) ≤ 2 →
      calculateCancellationFee b now = b.pricing.totalAmount * (50 / 100)) ∧
    (∀ b' refund fee,
      cancelBookingRoute b userId reason now = Except.ok (b', refund, fee) →
      fee = calculateCancellationFee b now ∧
      refund = b.pricing.totalAmount - calculateCancellationFee b now) := by
  refine ⟨?_, ?_, ?_, ?_⟩
  · intro h
    simp only [calculateCancellationFee]
    rw [if_pos h]
  · intro h2 h24
    simp only [calculateCancellationFee]
    rw [if_neg (by linarith), if_pos h2]
  · intro h2
    simp only [calculateCancellationFee]
    rw [if_neg (by linarith), if_neg (by linarith)]
  · intro b' refund fee h
    unfold cancelBookingRoute at h
    split_ifs at h
    · simp only [Except.ok.injEq, Prod.mk.injEq] at h
      exact ⟨h.2.2.symm, h.2.1.symm⟩

/-- Helper: `updateStatus` sets the `status` field to the requested status. -/
theorem updateStatus_status_eq (b : Booking) (newStatus : BookingStatus)
    (changedBy : UserId) (reason notes : String) (now : ℚ) :
    (updateStatus b newStatus changedBy reason notes now).status = newStatus := by
  simp only [updateStatus]
  split_ifs <;> rfl

/-- Helper: the requested status `pending` is in no row of the transition table. -/
theorem pending_not_in_validTransitions (st : BookingStatus) :
    BookingStatus.pending ∉ validTransitions st := by
  cases st <;> simp [validTransitions]

/-- C5: a status-update request succeeds exactly when the requester is a participant,
the requested transition is an edge of the table, and the provider-only constraint on
`confirmed` and `completed` is met; on success the new status is exactly the requested
one (never silently something else); and the table is precisely the one of the spec,
with `completed`, `cancelled` and `no_show` having no outgoing transitions. -/
theorem bookingStatusTransitions (b : Booking) (userId : UserId)
    (requested : BookingStatus) (reason notes : String) (now : ℚ) :
    ((∃ b', putBookingStatus b userId requested reason notes now = Except.ok b') ↔
      ((userId = b.customer ∨ userId = b.provider) ∧
        requested ∈ validTransitions b.status ∧
        (requested = .confirmed → userId = b.provider) ∧
        (requested = .completed → userId = b.provider))) ∧
    (∀ b', putBookingStatus b userId requested reason notes now = Except.ok b' →
      b'.status = requested) ∧
    validTransitions .pending = [.confirmed, .cancelled] ∧
    validTransitions .confirmed = [.in_progress, .cancelled, .no_show] ∧
    validTransitions .in_progress = [.completed, .cancelled] ∧
    validTransitions .completed = [] ∧
    validTransitions .cancelled = [] ∧
    validTransitions .no_show = [] := by
  refine ⟨?_, ?_, rfl, rfl, rfl, rfl, rfl, rfl⟩
  · unfold putBookingStatus
    split_ifs with hpart hpend htrans hconf hcomp
    · constructor
      · rintro ⟨b', hb'⟩
        exact absurd hb' (by simp)
      · rintro ⟨-, hmem, -, -⟩
        rw [hpend] at hmem
        exact (pending_not_in_validTransitions b.status hmem).elim
    · constructor
      · rintro ⟨b', hb'⟩
        exact absurd hb' (by simp)
      · rintro ⟨-, -, hc, -⟩
        exact (hconf.2 (hc hconf.1)).elim
    · constructor
      · rintro ⟨b', hb'⟩
        exact absurd hb' (by simp)
      · rintro ⟨-, -, -, hc⟩
        exact (hcomp.2 (hc hcomp.1)).elim
    · constructor
      · intro _
        refine ⟨hpart, htrans, ?_, ?_⟩
        · intro h
          by_contra hnp
          exact hconf ⟨h, hnp⟩
        · intro h
          by_contra hnp
          exact hcomp ⟨h, hnp⟩
      · intro _
        exact ⟨updateStatus b requested userId reason notes now, rfl⟩
    · constructor
      · rintro ⟨b', hb'⟩
        exact absurd hb' (by simp)
      · rintro ⟨-, hmem, -, -⟩
        exact (htrans hmem).elim
    · constructor
      · rintro ⟨b', hb'⟩
        exact absurd hb' (by simp)
      · rintro ⟨hp, -, -, -⟩
        exact (hpart hp).elim
  · unfold putBookingStatus
    split_ifs
    all_goals intro b' hb'
    · exact absurd hb' (by simp)
    · exact absurd hb' (by simp)
    · exact absurd hb' (by simp)
    · rw [← Except.ok.inj hb']
      exact updateStatus_status_eq b requested userId reason notes now
    · exact absurd hb' (by simp)
    · exact absurd hb' (by simp)

/-- Witness for `bookingStatusTransitions`: the provider (user 2) confirming a pending
booking succeeds. -/
theorem bookingStatusTransitions_witness :
    ∃ b', putBookingStatus (mkBooking 0 100 .pending) 2 .confirmed "ok" "" 0 =
      Except.ok b' :=
  (bookingStatusTransitions (mkBooking 0 100 .pending) 2 .confirmed "ok" "" 0).1.mpr
    ⟨Or.inr rfl, by simp [validTransitions, mkBooking], fun _ => rfl,
      fun h => by cases h⟩

/-- C6: `updateStatus` appends the pre-transition status to `statusHistory` before the
`status` field is set to the new status; transitioning into `completed` stamps
`completion.completedAt` only if it was unset; transitioning into `cancelled` stamps
`cancellation.cancelledAt`, `cancelledBy` and `reason` only if `cancelledAt` was unset;
and persisting a new booking document seeds `statusHistory` with an initial entry
(current status, the customer as actor, reason "Booking created"). -/
theorem updateStatus_history_spec (b : Booking) (newStatus : BookingStatus)
    (changedBy : UserId) (reason notes : String) (now : ℚ) (pricingMod : Bool) :
    (updateStatus b newStatus changedBy reason notes now).statusHistory =
        b.statusHistory ++ [⟨b.status, now, changedBy, reason, notes⟩] ∧
    (updateStatus b newStatus changedBy reason notes now).status = newStatus ∧
    (updateStatus b newStatus changedBy reason notes now).completion.completedAt =
        (if newStatus = .completed ∧ b.completion.completedAt = none then some now
         else b.completion.completedAt) ∧
    (updateStatus b newStatus changedBy reason notes now).cancellation.cancelledAt =
        (if newStatus = .cancelled ∧ b.cancellation.cancelledAt = none then some now
         else b.cancellation.cancelledAt) ∧
    (updateStatus b newStatus changedBy reason notes now).cancellation.cancelledBy =
        (if newStatus = .cancelled ∧ b.cancellation.cancelledAt = none then
          some changedBy
         else b.cancellation.cancelledBy) ∧
    (updateStatus b newStatus changedBy reason notes now).cancellation.reason =
        (if newStatus = .cancelled ∧ b.cancellation.cancelledAt = none then some reason
         else b.cancellation.reason) ∧
    (saveBooking ⟨b, true, pricingMod⟩ now).data.statusHistory =
        b.statusHistory ++
          [⟨b.status, now, b.customer, "Booking created", "Initial booking request"⟩] := by
  refine ⟨?_, ?_, ?_, ?_, ?_, ?_, ?_⟩
  · simp only [updateStatus]
    split_ifs <;> rfl
  · simp only [updateStatus]
    split_ifs <;> rfl
  · simp only [updateStatus]
    split_ifs <;> rfl
  · simp only [updateStatus]
    split_ifs <;> rfl
  · simp only [updateStatus]
    split_ifs <;> rfl
  · simp only [updateStatus]
    split_ifs <;> rfl
  · simp only [saveBooking, preSavePricing, preSaveCreationHistory]
    split_ifs <;> simp_all

/-- C7: saving a booking document whose `pricing` path is modified recomputes
`pricing.totalAmount` as the sum of the three components, each defaulting to 0 when
absent — regardless of whether the document is new. -/
theorem pricing_totalAmount_spec (b : Booking) (isNewDoc : Bool) (now : ℚ) :
    (saveBooking ⟨b, isNewDoc, true⟩ now).data.pricing.totalAmount =
      b.pricing.servicePrice.getD 0 + b.pricing.platformFee.getD 0 +
        b.pricing.taxes.getD 0 := by
  simp only [saveBooking, preSavePricing, preSaveCreationHistory]
  split_ifs <;> rfl

/-- Helper: `addLike` when a like by the user is already present is the identity. -/
theorem addLike_of_find?_some {p : CommunityPost} {u : UserId} {now : ℚ} {l : PostLike}
    (h : p.engagement.likes.find? (fun x => x.user == u) = some l) :
    addLike p u now = p := by
  unfold addLike
  rw [h]

/-- Helper: `addLike` when no like by the user is present appends one entry. -/
theorem addLike_of_find?_none {p : CommunityPost} {u : UserId} {now : ℚ}
    (h : p.engagement.likes.find? (fun x => x.user == u) = none) :
    addLike p u now = { p with engagement := ⟨p.engagement.likes ++ [⟨u, now⟩]⟩ } := by
  unfold addLike
  rw [h]

/-- C8: `addLike` is idempotent (the second call with the same user is the identity);
`removeLike` for a user with no like entry leaves the post unchanged; and under the
at-most-one-entry-per-user invariant, a first or repeated `addLike` leaves exactly one
entry for that user and both operations preserve the invariant. -/
theorem addLike_removeLike_spec (p : CommunityPost) (u : UserId) (t1 t2 : ℚ) :
    addLike (addLike p u t1) u t2 = addLike p u t1 ∧
    ((∀ l ∈ p.engagement.likes, l.user ≠ u) → removeLike p u = p) ∧
    (AtMostOnePerUser p.engagement.likes →
      (addLike p u t1).engagement.likes.countP (fun l => l.user == u) = 1 ∧
      (addLike (addLike p u t1) u t2).engagement.likes.countP (fun l => l.user == u) =
        1 ∧
      AtMostOnePerUser (addLike p u t1).engagement.likes ∧
      AtMostOnePerUser (removeLike p u).engagement.likes) := by
  have hidem : addLike (addLike p u t1) u t2 = addLike p u t1 := by
    cases hfind : p.engagement.likes.find? (fun x => x.user == u) with
    | some l =>
      rw [addLike_of_find?_some hfind, addLike_of_find?_some hfind]
    | none =>
      rw [addLike_of_find?_none hfind]
      have hfind2 : (p.engagement.likes ++ [(⟨u, t1⟩ : PostLike)]).find?
          (fun x => x.user == u) = some ⟨u, t1⟩ := by
        rw [List.find?_append, hfind]
        simp
      exact addLike_of_find?_some hfind2
  have hcount : AtMostOnePerUser p.engagement.likes →
      (addLike p u t1).engagement.likes.countP (fun l => l.user == u) = 1 := by
    intro hinv
    cases hfind : p.engagement.likes.find? (fun x => x.user == u) with
    | some l =>
      rw [addLike_of_find?_some hfind]
      have hl := List.find?_some hfind
      have h1 : 0 < p.engagement.likes.countP (fun l => l.user == u) :=
        List.countP_pos_iff.mpr ⟨l, List.mem_of_find?_eq_some hfind, hl⟩
      have h2 := hinv u
      omega
    | none =>
      rw [addLike_of_find?_none hfind]
      have h0 : p.engagement.likes.countP (fun l => l.user == u) = 0 :=
        List.countP_eq_zero.mpr (List.find?_eq_none.mp hfind)
      simp [List.countP_append, h0]
  refine ⟨hidem, ?_, fun hinv => ⟨hcount hinv, by rw [hidem]; exact hcount hinv,
    ?_, ?_⟩⟩
  · intro h
    have hfilter : p.engagement.likes.filter (fun l => l.user != u) =
        p.engagement.likes :=
      List.filter_eq_self.mpr (fun a ha => by simpa [bne_iff_ne] using h a ha)
    unfold removeLike
    rw [hfilter]
  · intro v
    cases hfind : p.engagement.likes.find? (fun x => x.user == u) with
    | some l =>
      rw [addLike_of_find?_some hfind]
      exact hinv v
    | none =>
      rw [addLike_of_find?_none hfind]
      by_cases huv : u = v
      · have h0 : p.engagement.likes.countP (fun l => l.user == v) = 0 := by
          refine List.countP_eq_zero.mpr (fun a ha => ?_)
          have := List.find?_eq_none.mp hfind a ha
          simpa [huv] using this
        simp [List.countP_append, h0, huv]
      · have h1 : ([(⟨u, t1⟩ : PostLike)].countP (fun l => l.user == v)) = 0 := by
          simp [huv]
        simp only [List.countP_append, h1, Nat.add_zero]
        exact hinv v
  · intro v
    have hsub : List.Sublist
        (p.engagement.likes.filter (fun l => l.user != u)) p.engagement.likes :=
      List.filter_sublist p.engagement.likes
    have := hsub.countP_le (fun l => l.user == v)
    have h2 := hinv v
    unfold removeLike
    simp only []
    omega

/-- Witness for `addLike_removeLike_spec`: liking an empty-engagement post as user 7
leaves exactly one like entry for user 7. -/
theorem addLike_removeLike_spec_witness :
    (addLike ⟨1, ⟨[]⟩⟩ 7 0).engagement.likes.countP (fun l => l.user == 7) = 1 :=
  ((addLike_removeLike_spec ⟨1, ⟨[]⟩⟩ 7 0 0).2.2
    (by intro v; simp [AtMostOnePerUser])).1

/-- Witness for `calculateTrustScore_spec`, matching the spec's own example: 10 reviews,
average rating 5, 10 completed, 0 cancelled scores 100. -/
theorem calculateTrustScore_spec_witness :
    calculateTrustScore ⟨10, 5, 10, 0⟩ = some (specTrustScore ⟨10, 5, 10, 0⟩) ∧
    specTrustScore ⟨10, 5, 10, 0⟩ = 100 :=
  ⟨(calculateTrustScore_spec ⟨10, 5, 10, 0⟩).2.2 (by norm_num) (by simp),
    by norm_num [specTrustScore, jsRound]⟩

/-- Witness for `calculateCancellationFee_spec`, matching the spec's own example: a
booking scheduled 30 hours out cancels free of charge. -/
theorem calculateCancellationFee_spec_witness :
    calculateCancellationFee (mkBooking (30 * (1000 * 60 * 60)) 100 .pending) 0 = 0 :=
  (calculateCancellationFee_spec (mkBooking (30 * (1000 * 60 * 60)) 100 .pending) 1
    "reason" 0).1 (by norm_num [mkBooking])

/-- C9: the JSON serialization of a user and the default query projection both list
exactly the non-password keys, while the raw document object does contain the
`password` key — so the password hash is never serialized in API output. -/
theorem password_not_serialized (u : UserDoc) :
    (userToJSON u).map Prod.fst =
        ["firstName", "lastName", "email", "phone", "bio", "trustScore", "isActive"] ∧
    (defaultQueryProjection u).map Prod.fst =
        ["firstName", "lastName", "email", "phone", "bio", "trustScore", "isActive"] ∧
    (toObject u).map Prod.fst =
        ["firstName", "lastName", "email", "phone", "password", "bio", "trustScore",
          "isActive"] ∧
    "password" ∉ (userToJSON u).map Prod.fst ∧
    "password" ∉ (defaultQueryProjection u).map Prod.fst := by
  have h1 : (userToJSON u).map Prod.fst =
      ["firstName", "lastName", "email", "phone", "bio", "trustScore", "isActive"] := rfl
  have h2 : (defaultQueryProjection u).map Prod.fst =
      ["firstName", "lastName", "email", "phone", "bio", "trustScore", "isActive"] := rfl
  refine ⟨h1, h2, rfl, ?_, ?_⟩
  · rw [h1]
    decide
  · rw [h2]
    decide

/-- Witness for `password_not_serialized` at a concrete user document. -/
theorem password_not_serialized_witness :
    "password" ∉ (userToJSON ⟨"Ada", "L", "a@x.com", none, "hash", none, 0,
      true⟩).map Prod.fst :=
  (password_not_serialized ⟨"Ada", "L", "a@x.com", none, "hash", none, 0, true⟩).2.2.2.1

/-- C4 counterexample: on a completed booking (id 1, customer 1, provider 2), the
customer creates a `customer_to_provider` review; the provider then attempts the
opposite-direction `provider_to_customer` review of the same booking.  The claim says
both can be created, but the second insert violates the unique index on `booking`
alone and is rejected as a duplicate. -/
theorem review_both_directions_counterexample :
    createReviewRoute [] (mkBooking 0 0 .completed) 1 .customer_to_provider 4
        "Great service" =
      Except.ok [⟨1, 2, 3, 1, .customer_to_provider, 4, "Great service"⟩] ∧
    createReviewRoute [⟨1, 2, 3, 1, .customer_to_provider, 4, "Great service"⟩]
        (mkBooking 0 0 .completed) 2 .provider_to_customer 5 "Great customer" =
      Except.error ⟨400, "Booking already exists"⟩ := by
  constructor <;> rfl

/-- C4 (amended): review creation enforces at most one review per booking in total
(unique constraint on `booking` alone): it succeeds only when no review of either
direction exists for the booking, and afterwards exactly one review references the
booking; any creation attempt while some review already references the booking — the
same `(booking, reviewType)` pair (route-level duplicate check) or the opposite
direction (unique index) — is rejected. -/
theorem review_unique_per_booking (db : List Review) (bk : Booking) (userId : UserId)
    (rt : ReviewType) (rating : Nat) (comment : String) :
    (∀ db', createReviewRoute db bk userId rt rating comment = Except.ok db' →
      (∀ r ∈ db, r.booking ≠ bk.id) ∧
      db'.countP (fun r => r.booking == bk.id) = 1) ∧
    ((∃ r ∈ db, r.booking = bk.id) →
      ∀ db', createReviewRoute db bk userId rt rating comment ≠ Except.ok db') := by
  constructor
  · intro db' h
    unfold createReviewRoute insertReview at h
    dsimp only at h
    split_ifs at h with h1 h2 h3 h4 h5 h6 h7
    all_goals
      have h6' : ∀ r0 ∈ db, r0.booking ≠ bk.id := fun r0 hr0 hEq => h6 ⟨r0, hr0, hEq⟩
    all_goals refine ⟨h6', ?_⟩
    all_goals rw [← Except.ok.inj h, List.countP_append]
    all_goals
      have hz : db.countP (fun r => r.booking == bk.id) = 0 :=
        List.countP_eq_zero.mpr (fun a ha => by simpa using h6' a ha)
    all_goals simp [hz]
  · rintro ⟨r0, hr0, hb⟩ db' h
    unfold createReviewRoute insertReview at h
    dsimp only at h
    split_ifs at h with h1 h2 h3 h4 h5 h6 h7
    all_goals exact h6 ⟨r0, hr0, hb⟩

/-- Witness for `review_unique_per_booking`: a successful first review on an empty
store leaves exactly one review referencing the booking. -/
theorem review_unique_per_booking_witness :
    (∀ r ∈ ([] : List Review), r.booking ≠ (mkBooking 0 0 .completed).id) ∧
    ([⟨1, 2, 3, 1, .customer_to_provider, 4, "Great service"⟩] : List Review).countP
      (fun r => r.booking == (mkBooking 0 0 .completed).id) = 1 :=
  (review_unique_per_booking [] (mkBooking 0 0 .completed) 1 .customer_to_provider 4
    "Great service").1 [⟨1, 2, 3, 1, .customer_to_provider, 4, "Great service"⟩] rfl

/-- C10: when the authenticated requester owns the targeted service, booking creation
answers 400 "Cannot book your own service" (whenever the service is live enough to
reach that check) and never yields a booking; moreover any booking the route does
create has the requester as customer and the service owner as provider, and the two
differ. -/
theorem no_self_booking (s : Service) (serviceId : ObjectId) (userId : UserId)
    (sched now dur : ℚ) :
    (s.provider = userId → s.isActive = true → s.isPaused = false →
      createBookingRoute (some s) serviceId userId sched now dur =
        Except.error ⟨400, "Cannot book your own service"⟩) ∧
    (s.provider = userId →
      ∀ b, createBookingRoute (some s) serviceId userId sched now dur ≠
        Except.ok b) ∧
    (∀ b, createBookingRoute (some s) serviceId userId sched now dur = Except.ok b →
      b.customer = userId ∧ b.provider = s.provider ∧ b.customer ≠ b.provider) := by
  refine ⟨?_, ?_, ?_⟩
  · intro h ha hp
    simp [createBookingRoute, ha, hp, h]
  · intro h b
    simp only [createBookingRoute]
    split_ifs with h1 h2 h3 <;> first | simp | exact absurd h h2
  · intro b hb
    simp only [createBookingRoute] at hb
    split_ifs at hb with h1 h2 h3
    cases hAv : isAvailable s sched dur with
    | ok bv =>
      rw [hAv] at hb
      cases bv
      · simp at hb
      · simp only [Except.ok.injEq] at hb
        subst hb
        exact ⟨rfl, rfl, fun hEq => h2 hEq.symm⟩
    | error e =>
      rw [hAv] at hb
      simp at hb

/-- Witness for `no_self_booking`: user 5 attempting to book their own active service. -/
theorem no_self_booking_witness :
    createBookingRoute (some ⟨5, true, false, ⟨[], [], none⟩⟩) 9 5 0 0 60 =
      Except.error ⟨400, "Cannot book your own service"⟩ :=
  (no_self_booking ⟨5, true, false, ⟨[], [], none⟩⟩ 9 5 0 0 60).1 rfl rfl rfl

end TrustCircle
